import Mathlib

/-!
Shallow embedding of the nebula bootstrap file (main.go): the startup
sequence of Main, the preferred-range merge, the command channel
dispatch, the listen-port discovery, the static host map loading and
the shutdown path. External collaborators (config parsing, the Go
standard library net and strconv functions, certificate loading, the
TUN driver, the UDP socket) appear as oracle parameters or as small
models of their documented behaviour; the control flow and data flow
of Main itself are translated line by line from the source.
-/

namespace Nebula

/-- Byte order selected for noise nonce assembly (binary.BigEndian or
binary.LittleEndian in the source). -/
inductive Endianness
  | big
  | little
deriving DecidableEq, Repr

/-- The cipher switch of Main: case "aes" sets noiseEndianness to
binary.BigEndian, case "chachapoly" sets it to binary.LittleEndian, and
the default branch only logs an unknown-cipher error, leaving no
endianness selected. -/
def selectNoiseEndianness (cipher : String) : Option Endianness :=
  if cipher = "aes" then some Endianness.big
  else if cipher = "chachapoly" then some Endianness.little
  else none

/-- A parsed CIDR as returned by net.ParseCIDR, identified by the
canonical string that its String method prints; Main only compares
these strings and collects the values. -/
structure IPNet where
  netStr : String
deriving DecidableEq, Repr

/-- The first preferred-ranges loop of Main: each raw entry is parsed
with net.ParseCIDR (abstracted as the parseCIDR oracle) and appended in
order; the first parse failure makes Main return a formatted error. -/
def parsePreferredRanges (parseCIDR : String → Option IPNet) :
    List String → Except String (List IPNet)
  | [] => Except.ok []
  | r :: rs =>
    match parseCIDR r with
    | none => Except.error "failed to parse preferred_ranges"
    | some c =>
      match parsePreferredRanges parseCIDR rs with
      | Except.error e => Except.error e
      | Except.ok cs => Except.ok (c :: cs)

/-- The local_range merge of Main: when local_range is set it is
parsed, a parse failure returns an error, and the parsed range is
appended to the preferred ranges only when no existing entry has the
same canonical string. -/
def mergeLocalRange (parseCIDR : String → Option IPNet) (pr : List IPNet)
    (rawLocalRange : String) : Except String (List IPNet) :=
  if rawLocalRange = "" then Except.ok pr
  else
    match parseCIDR rawLocalRange with
    | none => Except.error "failed to parse local_range"
    | some localRange =>
      if pr.any (fun r => r.netStr = localRange.netStr) then Except.ok pr
      else Except.ok (pr ++ [localRange])

/-- The complete preferred-ranges construction of Main, lines 168 to
203 of main.go: parse preferred_ranges, then merge local_range. -/
def buildPreferredRanges (parseCIDR : String → Option IPNet)
    (rawPreferredRanges : List String) (rawLocalRange : String) :
    Except String (List IPNet) :=
  match parsePreferredRanges parseCIDR rawPreferredRanges with
  | Except.error e => Except.error e
  | Except.ok pr => mergeLocalRange parseCIDR pr rawLocalRange

/-- Effect of one CommandRequest in the command goroutine of Main: the
switch on cmd.Command calls udpServer.Rebind for "rebind", forwards the
request to killChan for "exit", and has no branch for anything else. -/
inductive CommandEffect
  | rebindUdpListener
  | signalShutdown
  | noEffect
deriving DecidableEq, Repr

/-- The command switch of Main, lines 152 to 165 of main.go. -/
def dispatchCommand (command : String) : CommandEffect :=
  if command = "rebind" then CommandEffect.rebindUdpListener
  else if command = "exit" then CommandEffect.signalShutdown
  else CommandEffect.noEffect

/-- A UDP address as used by NewUDPAddr: a 32-bit IP and a 16-bit
port, both already converted to integers. -/
structure UDPAddr where
  ip : Nat
  port : Nat
deriving DecidableEq, Repr

/-- The listen-port discovery of Main, lines 222 to 230 of main.go:
when the configured port is 0 and Main is not in config-test mode, the
port is replaced by the port of udpServer.LocalAddr (an error from
LocalAddr makes Main return an error); otherwise the configured port
is kept. -/
def resolveListenPort (configPort : Nat) (configTest : Bool)
    (localAddr : Except String UDPAddr) : Except String Nat :=
  if configPort == 0 && !configTest then
    match localAddr with
    | Except.error e => Except.error ("failed to get listening port: " ++ e)
    | Except.ok a => Except.ok a.port
  else Except.ok configPort

/-- Accumulating decimal parse of a character list: none as soon as a
non-digit appears. -/
def atoiDigitsAux : List Char → Nat → Option Nat
  | [], acc => some acc
  | c :: cs, acc =>
    let n := c.toNat
    if 48 ≤ n && n ≤ 57 then atoiDigitsAux cs (acc * 10 + (n - 48)) else none

/-- Decimal parse of a non-empty digit string. -/
def atoiDigits : List Char → Option Nat
  | [] => none
  | c :: cs => atoiDigitsAux (c :: cs) 0

/-- Go strconv.Atoi as the static-host-map loop uses it: an optional
sign followed by at least one decimal digit gives the parsed integer
and a success flag; on a syntax error Atoi returns the value 0, and
Main only logs the error and keeps using that 0 value. -/
def goAtoi (s : String) : Int × Bool :=
  match s.toList with
  | [] => (0, false)
  | c :: cs =>
    if c = '-' then
      match atoiDigits cs with
      | some n => (-(n : Int), true)
      | none => (0, false)
    else if c = '+' then
      match atoiDigits cs with
      | some n => ((n : Int), true)
      | none => (0, false)
    else
      match atoiDigits (c :: cs) with
      | some n => ((n : Int), true)
      | none => (0, false)

/-- One static_host_map value in Main, lines 284 to 307 of main.go:
the entry is split at the colon, the host part goes through
net.ResolveIPAddr (the resolveIPAddr oracle, returning the resolved IP
as an integer); on resolver failure nothing is added, otherwise
strconv.Atoi parses the port part, a parse failure is only logged, and
lightHouse.AddRemote is called with NewUDPAddr of the IP and the port
cast to uint16. The result is the endpoint handed to AddRemote, or
none when no AddRemote call happens. -/
def staticHostEndpoint (resolveIPAddr : String → Option Nat)
    (hostPart portPart : String) : Option UDPAddr :=
  match resolveIPAddr hostPart with
  | none => none
  | some ip =>
    let p := goAtoi portPart
    some { ip := ip, port := (p.fst % 65536).toNat }

/-- The configuration values Main reads that steer its control flow. -/
structure MainConfig where
  configTest : Bool
  cipher : String
  preferredRangesRaw : List String
  localRangeRaw : String
  listenPort : Nat
  amLighthouse : Bool
  lighthouseHostsRaw : List String
deriving Repr

/-- Results of the external calls Main makes, in source order: each
fallible collaborator outside this file is an oracle flag or function.
parseCIDR stands for net.ParseCIDR, localAddr for
udpServer.LocalAddr, parseIP for net.ParseIP composed with ip2int, and
inSubnet for tunCidr.Contains on a successfully parsed IP. -/
structure ExternalResults where
  marshalOk : Bool
  loggerOk : Bool
  caOk : Bool
  certOk : Bool
  firewallOk : Bool
  routesOk : Bool
  unsafeRoutesOk : Bool
  sshdEnabled : Bool
  sshdOk : Bool
  tunOk : Bool
  udpOk : Bool
  parseCIDR : String → Option IPNet
  localAddr : Except String UDPAddr
  parseIP : String → Option Nat
  inSubnet : Nat → Bool
  remoteAllowListOk : Bool
  localAllowListOk : Bool
  interfaceOk : Bool

/-- Observable steps of one run of Main. -/
inductive MainEvent
  | printConfig
  | openTun
  | openUdp
  | warnLighthouseAndHosts
  | newLightHouse (amLighthouse : Bool) (hosts : List Nat) (port : Nat)
  | logUnknownCipher
  | newInterface
  | runInterface
deriving DecidableEq, Repr

/-- How a run of Main ends: returning an error to its caller,
terminating the process (os.Exit or a logrus Fatal call), or reaching
ifce.Run and staying up. -/
inductive MainOutcome
  | errorReturn (msg : String)
  | exited (code : Nat)
  | running
deriving DecidableEq, Repr

/-- The lighthouse.hosts loop of Main, lines 240 to 250 of main.go: a
host that net.ParseIP cannot parse is logged, and then tunCidr.Contains
on the nil IP is false, so l.Fatalf terminates the process; a parsed
host outside the subnet also hits l.Fatalf; otherwise ip2int of the
host is stored. The error result marks the Fatalf process
termination. -/
def loadLighthouseHosts (parseIP : String → Option Nat)
    (inSubnet : Nat → Bool) : List String → Except Unit (List Nat)
  | [] => Except.ok []
  | h :: hs =>
    match parseIP h with
    | none => Except.error ()
    | some ip =>
      if inSubnet ip then
        match loadLighthouseHosts parseIP inSubnet hs with
        | Except.error e => Except.error e
        | Except.ok ips => Except.ok (ip :: ips)
      else Except.error ()

/-- Tail of Main from the cipher switch, lines 348 to 398 of main.go:
the switch only logs on an unknown cipher and execution continues;
outside config-test mode NewInterface runs (a failure returns an
error) and then ifce.Run; in config-test mode os.Exit(0) runs. -/
def mainRunCipher (cfg : MainConfig) (ext : ExternalResults)
    (evs : List MainEvent) : List MainEvent × MainOutcome :=
  let evs :=
    match selectNoiseEndianness cfg.cipher with
    | some _ => evs
    | none => evs ++ [MainEvent.logUnknownCipher]
  if cfg.configTest then (evs, MainOutcome.exited 0)
  else
    let evs := evs ++ [MainEvent.newInterface]
    if !ext.interfaceOk then (evs, MainOutcome.errorReturn "failed to initialize interface")
    else (evs ++ [MainEvent.runInterface], MainOutcome.running)

/-- Lighthouse section of Main, lines 232 to 274 of main.go: the
warning when am_lighthouse is set while upstream hosts exist, the
hosts loop (whose failure is an l.Fatalf process exit), the
NewLightHouse construction receiving the parsed hosts and the
discovered port, and the two allow-list loads whose failures are
logrus Fatal process exits. -/
def mainRunLighthouse (cfg : MainConfig) (ext : ExternalResults)
    (evs : List MainEvent) (port : Nat) : List MainEvent × MainOutcome :=
  let evs :=
    if cfg.amLighthouse && !cfg.lighthouseHostsRaw.isEmpty then
      evs ++ [MainEvent.warnLighthouseAndHosts]
    else evs
  match loadLighthouseHosts ext.parseIP ext.inSubnet cfg.lighthouseHostsRaw with
  | Except.error _ => (evs, MainOutcome.exited 1)
  | Except.ok hosts =>
    let evs := evs ++ [MainEvent.newLightHouse cfg.amLighthouse hosts port]
    if !ext.remoteAllowListOk then (evs, MainOutcome.exited 1)
    else if !ext.localAllowListOk then (evs, MainOutcome.exited 1)
    else mainRunCipher cfg ext evs

/-- Port discovery step of Main, lines 222 to 230 of main.go. -/
def mainRunPort (cfg : MainConfig) (ext : ExternalResults)
    (evs : List MainEvent) : List MainEvent × MainOutcome :=
  if cfg.listenPort == 0 && !cfg.configTest then
    match ext.localAddr with
    | Except.error _ => (evs, MainOutcome.errorReturn "failed to get listening port")
    | Except.ok a => mainRunLighthouse cfg ext evs a.port
  else mainRunLighthouse cfg ext evs cfg.listenPort

/-- Preferred-ranges step of Main, lines 168 to 203 of main.go: a parse
failure of preferred_ranges or local_range returns an error. -/
def mainRunRanges (cfg : MainConfig) (ext : ExternalResults)
    (evs : List MainEvent) : List MainEvent × MainOutcome :=
  match buildPreferredRanges ext.parseCIDR cfg.preferredRangesRaw cfg.localRangeRaw with
  | Except.error e => (evs, MainOutcome.errorReturn e)
  | Except.ok _ => mainRunPort cfg ext evs

/-- The system-modifying half of the startup, lines 111 to 148 of
main.go: outside config-test mode the TUN device and then the UDP
listener are opened, each failure returning a formatted error; in
config-test mode both are skipped. -/
def mainRunTun (cfg : MainConfig) (ext : ExternalResults)
    (evs : List MainEvent) : List MainEvent × MainOutcome :=
  if cfg.configTest then mainRunRanges cfg ext evs
  else
    let evs := evs ++ [MainEvent.openTun]
    if !ext.tunOk then (evs, MainOutcome.errorReturn "failed to get a tun/tap device")
    else
      let evs := evs ++ [MainEvent.openUdp]
      if !ext.udpOk then (evs, MainOutcome.errorReturn "failed to open udp listener")
      else mainRunRanges cfg ext evs

/-- The run of Main, translated from main.go in source order: the
config-test print, then the non-system-modifying configuration phase
(logger, CA, certificate, firewall, routes, unsafe routes, sshd), each
failure returning a formatted error, then the later stages. -/
def mainRun (cfg : MainConfig) (ext : ExternalResults) :
    List MainEvent × MainOutcome :=
  if cfg.configTest && !ext.marshalOk then
    ([], MainOutcome.errorReturn "yaml marshal failed")
  else
    let evs : List MainEvent := if cfg.configTest then [MainEvent.printConfig] else []
    if !ext.loggerOk then (evs, MainOutcome.errorReturn "failed to configure the logger")
    else if !ext.caOk then (evs, MainOutcome.errorReturn "failed to load ca from config")
    else if !ext.certOk then (evs, MainOutcome.errorReturn "failed to load certificate from config")
    else if !ext.firewallOk then (evs, MainOutcome.errorReturn "error while loading firewall rules")
    else if !ext.routesOk then (evs, MainOutcome.errorReturn "could not parse tun.routes")
    else if !ext.unsafeRoutesOk then (evs, MainOutcome.errorReturn "could not parse tun.unsafe_routes")
    else if ext.sshdEnabled && !ext.sshdOk then (evs, MainOutcome.errorReturn "error while configuring the sshd")
    else mainRunTun cfg ext evs

/-- Per-session cipher state as far as the shutdown path reads it: the
ready flag of h.ConnectionState. -/
structure ConnectionState where
  ready : Bool
deriving DecidableEq, Repr

/-- A host of the main HostMap as far as shutdownBlock reads it: the
VPN IP key hostId, the connection state, and the current remote. -/
structure HostInfo where
  hostId : Nat
  connectionState : ConnectionState
  remote : UDPAddr
deriving DecidableEq, Repr

/-- Steps of the shutdown path. -/
inductive ShutdownEvent
  | lockHostMap
  | sendCloseTunnel (hostId : Nat)
  | unlockHostMap
  | answerCallback
deriving DecidableEq, Repr

/-- The closeTunnel loop of shutdownBlock, lines 420 to 426 of main.go:
for every host of the main HostMap whose ConnectionState is ready,
ifce.send is called with the closeTunnel type (best effort: the send
result is ignored); hosts that are not ready are skipped. -/
def closeTunnelSends (hosts : List HostInfo) : List ShutdownEvent :=
  hosts.filterMap fun h =>
    if h.connectionState.ready then some (ShutdownEvent.sendCloseTunnel h.hostId)
    else none

/-- The shutdown path shutdownBlock, lines 401 to 435 of main.go, after
a SIGTERM, SIGINT or exit command arrives: the main HostMap is locked,
the closeTunnel loop runs, the map is unlocked, and finally the
callback of the triggering command, when it has one, receives nil. -/
def shutdownBlockTrace (hosts : List HostInfo) (hasCallback : Bool) :
    List ShutdownEvent :=
  ShutdownEvent.lockHostMap ::
    (closeTunnelSends hosts ++ [ShutdownEvent.unlockHostMap] ++
      if hasCallback then [ShutdownEvent.answerCallback] else [])

/-- A concrete configuration on which every startup step can succeed,
used to evaluate Main at single points of interest. -/
def goodConfig : MainConfig where
  configTest := false
  cipher := "aes"
  preferredRangesRaw := []
  localRangeRaw := ""
  listenPort := 4242
  amLighthouse := false
  lighthouseHostsRaw := []

/-- Concrete oracle results on which every external call succeeds:
every string parses as a CIDR whose canonical form is itself, the one
known IP name resolves, and the whole address space is in the
subnet. -/
def goodExt : ExternalResults where
  marshalOk := true
  loggerOk := true
  caOk := true
  certOk := true
  firewallOk := true
  routesOk := true
  unsafeRoutesOk := true
  sshdEnabled := false
  sshdOk := true
  tunOk := true
  udpOk := true
  parseCIDR := fun s => some { netStr := s }
  localAddr := Except.ok { ip := 0, port := 34567 }
  parseIP := fun s => if s = "10.0.0.1" then some 167772161 else none
  inSubnet := fun _ => true
  remoteAllowListOk := true
  localAllowListOk := true
  interfaceOk := true

theorem parsePreferredRanges_ok_iff (parseCIDR : String → Option IPNet)
    (raws : List String) (pr : List IPNet) :
    parsePreferredRanges parseCIDR raws = Except.ok pr ↔
      raws.map parseCIDR = pr.map some := by
  induction raws generalizing pr with
  | nil =>
    simp only [parsePreferredRanges, List.map_nil]
    constructor
    · intro h
      cases h
      rfl
    · intro h
      cases pr with
      | nil => rfl
      | cons p ps => simp at h
  | cons r rs ih =>
    simp only [parsePreferredRanges, List.map_cons]
    cases hc : parseCIDR r with
    | none =>
      constructor
      · intro h
        cases h
      · intro h
        cases pr with
        | nil => simp at h
        | cons p ps => simp at h
    | some c =>
      cases hm : parsePreferredRanges parseCIDR rs with
      | error e =>
        constructor
        · intro h
          cases h
        · intro h
          cases pr with
          | nil => simp at h
          | cons p ps =>
            simp only [List.map_cons, List.cons.injEq, Option.some.injEq] at h
            have := (ih ps).mpr h.2
            rw [this] at hm
            cases hm
      | ok cs =>
        have hmap := (ih cs).mp hm
        constructor
        · intro h
          cases h
          simp [hmap]
        · intro h
          cases pr with
          | nil => simp at h
          | cons p ps =>
            simp only [List.map_cons, List.cons.injEq, Option.some.injEq] at h
            have := (ih ps).mpr h.2
            rw [this] at hm
            cases hm
            rw [h.1]

/-- C1: configuring cipher aes selects big-endian noise nonce
endianness, chachapoly selects little-endian, and no other cipher
value selects an endianness. -/
theorem cipher_selects_endianness :
    selectNoiseEndianness "aes" = some Endianness.big ∧
    selectNoiseEndianness "chachapoly" = some Endianness.little ∧
    ∀ c : String, c ≠ "aes" → c ≠ "chachapoly" → selectNoiseEndianness c = none := by
  refine ⟨rfl, rfl, ?_⟩
  intro c h1 h2
  simp [selectNoiseEndianness, h1, h2]

theorem cipher_selects_endianness_witness :
    selectNoiseEndianness "rc4" = none :=
  cipher_selects_endianness.2.2 "rc4" (by decide) (by decide)

/-- C5: a rebind command only rebinds the UDP listener, an exit
command signals shutdown, and every other command has no effect. -/
theorem command_channel_dispatch :
    dispatchCommand "rebind" = CommandEffect.rebindUdpListener ∧
    dispatchCommand "exit" = CommandEffect.signalShutdown ∧
    ∀ c : String, c ≠ "rebind" → c ≠ "exit" →
      dispatchCommand c = CommandEffect.noEffect := by
  refine ⟨rfl, rfl, ?_⟩
  intro c h1 h2
  simp [dispatchCommand, h1, h2]

theorem command_channel_dispatch_witness :
    dispatchCommand "status" = CommandEffect.noEffect :=
  command_channel_dispatch.2.2 "status" (by decide) (by decide)

/-- C3: the effective preferred-ranges list is the parsed
preferred_ranges entries; a set local_range is parsed and appended
exactly when no entry with the same canonical string is already
present, so the merge never duplicates local_range; a parse failure of
either option makes Main return an error. -/
theorem preferred_ranges_local_range_merge (parseCIDR : String → Option IPNet)
    (raws : List String) (rawLocal : String) :
    (∀ pr, parsePreferredRanges parseCIDR raws = Except.ok pr →
      raws.map parseCIDR = pr.map some ∧
      (rawLocal = "" → buildPreferredRanges parseCIDR raws rawLocal = Except.ok pr) ∧
      (∀ lr, rawLocal ≠ "" → parseCIDR rawLocal = some lr →
        buildPreferredRanges parseCIDR raws rawLocal =
          Except.ok (if pr.any (fun r => r.netStr = lr.netStr) then pr
            else pr ++ [lr])) ∧
      (rawLocal ≠ "" → parseCIDR rawLocal = none →
        buildPreferredRanges parseCIDR raws rawLocal =
          Except.error "failed to parse local_range")) ∧
    (∀ e, parsePreferredRanges parseCIDR raws = Except.error e →
      buildPreferredRanges parseCIDR raws rawLocal = Except.error e) := by
  constructor
  · intro pr hpr
    refine ⟨(parsePreferredRanges_ok_iff parseCIDR raws pr).mp hpr, ?_, ?_, ?_⟩
    · intro h
      simp [buildPreferredRanges, hpr, mergeLocalRange, h]
    · intro lr hne hlr
      simp only [buildPreferredRanges, hpr, mergeLocalRange, if_neg hne, hlr]
      exact (apply_ite Except.ok _ _ _).symm
    · intro hne hnone
      simp [buildPreferredRanges, hpr, mergeLocalRange, hne, hnone]
  · intro e he
    simp [buildPreferredRanges, he]

theorem preferred_ranges_local_range_merge_witness :
    buildPreferredRanges (fun s => some { netStr := s }) ["10.0.0.0/8"] "10.0.0.0/8" =
      Except.ok [{ netStr := "10.0.0.0/8" }] := by
  have h := ((preferred_ranges_local_range_merge (fun s => some { netStr := s })
      ["10.0.0.0/8"] "10.0.0.0/8").1 [{ netStr := "10.0.0.0/8" }] (by rfl)).2.2.1
      { netStr := "10.0.0.0/8" } (by decide) rfl
  simpa using h

theorem mem_closeTunnelSends (hosts : List HostInfo) (hid : Nat) :
    ShutdownEvent.sendCloseTunnel hid ∈ closeTunnelSends hosts ↔
      ∃ h ∈ hosts, h.hostId = hid ∧ h.connectionState.ready = true := by
  simp only [closeTunnelSends, List.mem_filterMap]
  constructor
  · rintro ⟨h, hmem, hh⟩
    by_cases hr : h.connectionState.ready = true
    · simp only [hr, if_true, Option.some.injEq, ShutdownEvent.sendCloseTunnel.injEq] at hh
      exact ⟨h, hmem, hh, hr⟩
    · simp [hr] at hh
  · rintro ⟨h, hmem, hhid, hr⟩
    exact ⟨h, hmem, by simp [hr, hhid]⟩

/-- C4: the shutdown path locks the main HostMap, sends a closeTunnel
message for exactly the hosts whose ConnectionState is ready, and only
after all those sends answers the callback of the triggering command
when it has one. -/
theorem shutdown_closes_ready_sessions (hosts : List HostInfo) (hasCallback : Bool) :
    (shutdownBlockTrace hosts hasCallback).head? = some ShutdownEvent.lockHostMap ∧
    (∀ hid : Nat, ShutdownEvent.sendCloseTunnel hid ∈ shutdownBlockTrace hosts hasCallback ↔
      ∃ h ∈ hosts, h.hostId = hid ∧ h.connectionState.ready = true) ∧
    (hasCallback = true →
      ∃ pre, shutdownBlockTrace hosts hasCallback = pre ++ [ShutdownEvent.answerCallback] ∧
        ∀ hid : Nat, ShutdownEvent.sendCloseTunnel hid ∈ pre ↔
          ShutdownEvent.sendCloseTunnel hid ∈ shutdownBlockTrace hosts hasCallback) := by
  refine ⟨rfl, ?_, ?_⟩
  · intro hid
    have hiff : ShutdownEvent.sendCloseTunnel hid ∈ shutdownBlockTrace hosts hasCallback ↔
        ShutdownEvent.sendCloseTunnel hid ∈ closeTunnelSends hosts := by
      cases hasCallback <;> simp [shutdownBlockTrace]
    rw [hiff]
    exact mem_closeTunnelSends hosts hid
  · intro hcb
    subst hcb
    refine ⟨ShutdownEvent.lockHostMap :: (closeTunnelSends hosts ++ [ShutdownEvent.unlockHostMap]), ?_, ?_⟩
    · simp [shutdownBlockTrace]
    · intro hid
      simp [shutdownBlockTrace]

theorem shutdown_closes_ready_sessions_witness :
    ShutdownEvent.sendCloseTunnel 7 ∈
      shutdownBlockTrace
        [{ hostId := 7, connectionState := { ready := true }, remote := { ip := 1, port := 9 } },
         { hostId := 8, connectionState := { ready := false }, remote := { ip := 2, port := 9 } }]
        true :=
  ((shutdown_closes_ready_sessions
      [{ hostId := 7, connectionState := { ready := true }, remote := { ip := 1, port := 9 } },
       { hostId := 8, connectionState := { ready := false }, remote := { ip := 2, port := 9 } }]
      true).2.1 7).mpr
    ⟨{ hostId := 7, connectionState := { ready := true }, remote := { ip := 1, port := 9 } },
      by decide, rfl, rfl⟩

/-- C6: when listen.port is configured as 0 outside config-test mode,
the port Main hands to later components is the one discovered from the
bound UDP listener, and it is nonzero whenever the listener reports a
nonzero local port. -/
theorem ephemeral_port_discovered (cfg : MainConfig) (ext : ExternalResults)
    (evs : List MainEvent) (a : UDPAddr)
    (h0 : cfg.listenPort = 0) (ht : cfg.configTest = false)
    (hla : ext.localAddr = Except.ok a) (hp : a.port ≠ 0) :
    resolveListenPort cfg.listenPort cfg.configTest ext.localAddr = Except.ok a.port ∧
    a.port ≠ 0 ∧
    mainRunPort cfg ext evs = mainRunLighthouse cfg ext evs a.port := by
  refine ⟨?_, hp, ?_⟩ <;> simp [resolveListenPort, mainRunPort, h0, ht, hla]

theorem ephemeral_port_discovered_witness :
    resolveListenPort 0 false (Except.ok { ip := 0, port := 34567 }) =
      Except.ok 34567 := by
  have h := ephemeral_port_discovered { goodConfig with listenPort := 0 } goodExt []
      { ip := 0, port := 34567 } rfl rfl rfl (by decide)
  exact h.1

/-- C7: evaluation at the failing input: a static_host_map value whose
port part fails strconv.Atoi is still handed to lightHouse.AddRemote,
as an endpoint with UDP port 0, because Main only logs the Atoi error
and keeps the zero value Atoi returned. -/
theorem static_host_bad_port_added_with_port_zero :
    goAtoi "notaport" = (0, false) ∧
    staticHostEndpoint (fun s => if s = "1.2.3.4" then some 16909060 else none)
      "1.2.3.4" "notaport" = some { ip := 16909060, port := 0 } := by
  constructor <;> rfl

/-- C2 counterexample: with cipher rc4 and an otherwise valid
configuration outside config-test mode, Main reaches ifce.Run instead
of failing. -/
theorem unknown_cipher_runs_counterexample :
    (mainRun { goodConfig with cipher := "rc4" } goodExt).snd = MainOutcome.running ∧
    MainEvent.runInterface ∈ (mainRun { goodConfig with cipher := "rc4" } goodExt).fst := by
  exact ⟨rfl, by decide⟩

/-- C2 amended: a cipher value other than aes and chachapoly selects
no endianness and is logged as an unknown-cipher error, but startup is
not stopped: with an otherwise valid configuration Main still
constructs and runs the interface. -/
theorem unknown_cipher_not_fatal (c : String) (h1 : c ≠ "aes") (h2 : c ≠ "chachapoly") :
    selectNoiseEndianness c = none ∧
    (mainRun { goodConfig with cipher := c } goodExt).snd = MainOutcome.running ∧
    MainEvent.logUnknownCipher ∈ (mainRun { goodConfig with cipher := c } goodExt).fst ∧
    MainEvent.runInterface ∈ (mainRun { goodConfig with cipher := c } goodExt).fst := by
  have hn : selectNoiseEndianness c = none := by simp [selectNoiseEndianness, h1, h2]
  refine ⟨hn, ?_, ?_, ?_⟩ <;>
    simp [mainRun, goodConfig, goodExt, mainRunTun, mainRunRanges, buildPreferredRanges,
      parsePreferredRanges, mergeLocalRange, mainRunPort, mainRunLighthouse,
      loadLighthouseHosts, mainRunCipher, hn]

theorem unknown_cipher_not_fatal_witness :
    selectNoiseEndianness "blowfish" = none ∧
    (mainRun { goodConfig with cipher := "blowfish" } goodExt).snd = MainOutcome.running ∧
    MainEvent.logUnknownCipher ∈
      (mainRun { goodConfig with cipher := "blowfish" } goodExt).fst ∧
    MainEvent.runInterface ∈
      (mainRun { goodConfig with cipher := "blowfish" } goodExt).fst :=
  unknown_cipher_not_fatal "blowfish" (by decide) (by decide)

/-- C8 counterexample: an invalid lighthouse.remote_allow_list does
not return an error to the caller of Main; the logrus Fatal call
terminates the process. -/
theorem allow_list_failure_terminates_counterexample :
    (mainRun goodConfig { goodExt with remoteAllowListOk := false }).snd =
      MainOutcome.exited 1 := rfl

/-- C8 amended: CA, certificate, firewall, route, TUN, UDP and
interface failures each return a single formatted error to the caller
of Main, but an invalid allow list and an unparseable or
out-of-subnet lighthouse host terminate the process through logrus
Fatal calls. -/
theorem startup_failure_handling :
    (mainRun goodConfig { goodExt with caOk := false }).snd =
      MainOutcome.errorReturn "failed to load ca from config" ∧
    (mainRun goodConfig { goodExt with certOk := false }).snd =
      MainOutcome.errorReturn "failed to load certificate from config" ∧
    (mainRun goodConfig { goodExt with firewallOk := false }).snd =
      MainOutcome.errorReturn "error while loading firewall rules" ∧
    (mainRun goodConfig { goodExt with routesOk := false }).snd =
      MainOutcome.errorReturn "could not parse tun.routes" ∧
    (mainRun goodConfig { goodExt with unsafeRoutesOk := false }).snd =
      MainOutcome.errorReturn "could not parse tun.unsafe_routes" ∧
    (mainRun goodConfig { goodExt with tunOk := false }).snd =
      MainOutcome.errorReturn "failed to get a tun/tap device" ∧
    (mainRun goodConfig { goodExt with udpOk := false }).snd =
      MainOutcome.errorReturn "failed to open udp listener" ∧
    (mainRun goodConfig { goodExt with interfaceOk := false }).snd =
      MainOutcome.errorReturn "failed to initialize interface" ∧
    (mainRun goodConfig { goodExt with remoteAllowListOk := false }).snd =
      MainOutcome.exited 1 ∧
    (mainRun goodConfig { goodExt with localAllowListOk := false }).snd =
      MainOutcome.exited 1 ∧
    (mainRun { goodConfig with lighthouseHostsRaw := ["notanip"] } goodExt).snd =
      MainOutcome.exited 1 ∧
    (mainRun { goodConfig with lighthouseHostsRaw := ["10.0.0.1"] }
        { goodExt with inSubnet := fun _ => false }).snd = MainOutcome.exited 1 := by
  refine ⟨rfl, rfl, rfl, rfl, rfl, rfl, rfl, rfl, rfl, rfl, rfl, rfl⟩

/-- C9: in config-test mode with a valid configuration, Main prints
the marshalled config and the process exits with code 0, without ever
opening a TUN device or a UDP socket. -/
theorem config_test_prints_and_exits (cfg : MainConfig) (ext : ExternalResults)
    (hct : cfg.configTest = true) (hm : ext.marshalOk = true)
    (hlo : ext.loggerOk = true) (hca : ext.caOk = true) (hce : ext.certOk = true)
    (hfw : ext.firewallOk = true) (hro : ext.routesOk = true)
    (hur : ext.unsafeRoutesOk = true) (hsh : (ext.sshdEnabled && !ext.sshdOk) = false)
    (pr : List IPNet)
    (hpr : buildPreferredRanges ext.parseCIDR cfg.preferredRangesRaw cfg.localRangeRaw =
      Except.ok pr)
    (hosts : List Nat)
    (hlh : loadLighthouseHosts ext.parseIP ext.inSubnet cfg.lighthouseHostsRaw =
      Except.ok hosts)
    (hra : ext.remoteAllowListOk = true) (hlal : ext.localAllowListOk = true) :
    (mainRun cfg ext).snd = MainOutcome.exited 0 ∧
    MainEvent.printConfig ∈ (mainRun cfg ext).fst ∧
    MainEvent.openTun ∉ (mainRun cfg ext).fst ∧
    MainEvent.openUdp ∉ (mainRun cfg ext).fst := by
  cases hw : cfg.amLighthouse && !cfg.lighthouseHostsRaw.isEmpty <;>
    cases hsel : selectNoiseEndianness cfg.cipher <;>
    refine ⟨?_, ?_, ?_, ?_⟩ <;>
      simp [mainRun, mainRunTun, mainRunRanges, mainRunPort, mainRunLighthouse,
        mainRunCipher, hct, hm, hlo, hca, hce, hfw, hro, hur, hsh, hpr, hlh, hra,
        hlal, hw, hsel]

theorem config_test_prints_and_exits_witness :
    (mainRun { goodConfig with configTest := true } goodExt).snd = MainOutcome.exited 0 ∧
    MainEvent.printConfig ∈ (mainRun { goodConfig with configTest := true } goodExt).fst ∧
    MainEvent.openTun ∉ (mainRun { goodConfig with configTest := true } goodExt).fst ∧
    MainEvent.openUdp ∉ (mainRun { goodConfig with configTest := true } goodExt).fst :=
  config_test_prints_and_exits { goodConfig with configTest := true } goodExt
    rfl rfl rfl rfl rfl rfl rfl rfl rfl [] rfl [] rfl rfl rfl

/-- C10: when lighthouse.am_lighthouse is true and lighthouse.hosts is
non-empty, Main logs a warning and continues startup normally: the
parsed upstream host entries are handed to NewLightHouse and, with an
otherwise valid configuration, the interface still runs. -/
theorem am_lighthouse_with_hosts_warns_and_continues (cfg : MainConfig)
    (ext : ExternalResults)
    (hct : cfg.configTest = false) (ham : cfg.amLighthouse = true)
    (hne : cfg.lighthouseHostsRaw.isEmpty = false)
    (hlo : ext.loggerOk = true) (hca : ext.caOk = true) (hce : ext.certOk = true)
    (hfw : ext.firewallOk = true) (hro : ext.routesOk = true)
    (hur : ext.unsafeRoutesOk = true) (hsh : (ext.sshdEnabled && !ext.sshdOk) = false)
    (htun : ext.tunOk = true) (hudp : ext.udpOk = true)
    (pr : List IPNet)
    (hpr : buildPreferredRanges ext.parseCIDR cfg.preferredRangesRaw cfg.localRangeRaw =
      Except.ok pr)
    (hnp : (cfg.listenPort == 0) = false)
    (hosts : List Nat)
    (hlh : loadLighthouseHosts ext.parseIP ext.inSubnet cfg.lighthouseHostsRaw =
      Except.ok hosts)
    (hra : ext.remoteAllowListOk = true) (hlal : ext.localAllowListOk = true)
    (hif : ext.interfaceOk = true) :
    MainEvent.warnLighthouseAndHosts ∈ (mainRun cfg ext).fst ∧
    MainEvent.newLightHouse true hosts cfg.listenPort ∈ (mainRun cfg ext).fst ∧
    (mainRun cfg ext).snd = MainOutcome.running := by
  cases hsel : selectNoiseEndianness cfg.cipher <;>
    refine ⟨?_, ?_, ?_⟩ <;>
      simp [mainRun, mainRunTun, mainRunRanges, mainRunPort, mainRunLighthouse,
        mainRunCipher, hct, ham, hne, hlo, hca, hce, hfw, hro, hur, hsh, htun, hudp,
        hpr, hnp, hlh, hra, hlal, hif, hsel]

theorem am_lighthouse_with_hosts_warns_and_continues_witness :
    MainEvent.warnLighthouseAndHosts ∈
      (mainRun { goodConfig with amLighthouse := true, lighthouseHostsRaw := ["10.0.0.1"] }
        goodExt).fst ∧
    MainEvent.newLightHouse true [167772161] 4242 ∈
      (mainRun { goodConfig with amLighthouse := true, lighthouseHostsRaw := ["10.0.0.1"] }
        goodExt).fst ∧
    (mainRun { goodConfig with amLighthouse := true, lighthouseHostsRaw := ["10.0.0.1"] }
        goodExt).snd = MainOutcome.running :=
  am_lighthouse_with_hosts_warns_and_continues
    { goodConfig with amLighthouse := true, lighthouseHostsRaw := ["10.0.0.1"] } goodExt
    rfl rfl rfl rfl rfl rfl rfl rfl rfl rfl rfl rfl [] rfl rfl [167772161] rfl rfl rfl rfl

end Nebula
